import Mathlib

/-!
Verification of the Microcloud charm (src/charm.py) reconciliation and
peer-coordination logic, as a shallow embedding in Lean.

Configuration maps are modelled as association lists from string keys to
heterogeneous values (strings, booleans, integers), mirroring the charm
config dictionaries.  External command execution is modelled by an oracle
`List String → ExecResult` deciding, per argument vector, whether the
command succeeds, fails with captured stderr and a return code, or times
out (`subprocess.run` with `check=True` and a 600s timeout).  Exceptions
are modelled by an explicit error component (`PyError`): `RuntimeError`
(raised by the charm own wrappers and caught by the event handlers,
which then defer), `KeyError` (missing config key) and `UnboundLocalError`
(reading a local variable before assignment).
-/

/-- Heterogeneous config value: the charm config holds strings
(snap channels, mode) and booleans (microceph, microovn). -/
inductive Val where
  | vStr : String → Val
  | vBool : Bool → Val
  | vInt : Int → Val
deriving DecidableEq, Repr

/-- Python truthiness, as used by `if lxd_channel:` and `if microceph:`. -/
def Val.truthy : Val → Bool
  | Val.vStr s => !s.isEmpty
  | Val.vBool b => b
  | Val.vInt n => !(n == 0)

/-- Python str() rendering, as used by f-string interpolation of a value. -/
def Val.pyStr : Val → String
  | Val.vStr s => s
  | Val.vBool b => if b then "True" else "False"
  | Val.vInt n => toString n

/-- A config dictionary: insertion-ordered association list, unique keys. -/
abbrev Config := List (String × Val)

/-- Dictionary lookup (`d.get(k)` / `d[k]` when present). -/
def dictGet : Config → String → Option Val
  | [], _ => none
  | (k0, v0) :: t, k => if k0 = k then some v0 else dictGet t k

/-- Dictionary assignment `d[k] = v`: replace in place or append. -/
def dictSet : Config → String → Val → Config
  | [], k, v => [(k, v)]
  | (k0, v0) :: t, k, v => if k0 = k then (k0, v) :: t else (k0, v0) :: dictSet t k v

/-- Conditional dictionary assignment, for keys stored only when a
subsystem is enabled. -/
def dictSetOpt (c : Config) (k : String) : Option Val → Config
  | some v => dictSet c k v
  | none => c

/-- Does `needle` occur at the head of `hay`? -/
def leadMatch : List Char → List Char → Bool
  | [], _ => true
  | _ :: _, [] => false
  | a :: as, b :: bs => (a == b) && leadMatch as bs

/-- Does `needle` occur anywhere in `hay`? -/
def findSub (needle : List Char) : List Char → Bool
  | [] => leadMatch needle []
  | c :: t => leadMatch needle (c :: t) || findSub needle t

/-- Python substring test `needle in hay`. -/
def pyIn (needle hay : String) : Bool := findSub needle.toList hay.toList

/-- Unit status projection (ops.model status classes).  `ActiveStatus()` is
constructed without a message in this charm, so `active` carries none. -/
inductive UnitStatus where
  | active
  | blocked (msg : String)
  | maintenance (msg : String)
  | waiting (msg : String)
deriving DecidableEq, Repr

/-- Outcome of one external command (`subprocess.run`, `check=True`,
`capture_output=True`, 600s timeout). -/
inductive ExecResult where
  | ok
  | fail (stderr : String) (returncode : Int)
  | timeout
deriving DecidableEq, Repr

/-- Python exceptions relevant to the charm control flow. -/
inductive PyError where
  | runtimeError
  | keyError (k : String)
  | unboundLocal (name : String)
deriving DecidableEq, Repr

/-- How an event handler finishes: normally, with `event.defer()`, or by
crashing on an exception it does not catch. -/
inductive Outcome where
  | normal
  | deferred
  | crashed (e : PyError)
deriving DecidableEq, Repr

/-- The node-local charm state relevant to config reconciliation:
`_stored.config` (applied config), `_stored.microcloud_initialized`
(modelled as `microcloudInit`), and the unit status. -/
structure CharmState where
  storedConfig : Config
  microcloudInit : Bool
  status : UnitStatus
deriving DecidableEq, Repr

/-- Python repr of an argument-vector list, as rendered by
f-string interpolation of `e.cmd`. -/
def pyListRepr (c : List String) : String :=
  "[" ++ String.intercalate ", " (c.map fun a => "\x27" ++ a ++ "\x27") ++ "]"

/-- Blocked message for a failed command:
the command repr, the captured stderr and the return code. -/
def failMsg (c : List String) (err : String) (rc : Int) : String :=
  "Failed to run \"" ++ pyListRepr c ++ "\": " ++ err ++ " (" ++ toString rc ++ ")"

/-- Blocked message for a timed-out command:
the command repr in a distinct timeout message. -/
def timeoutMsg (c : List String) : String :=
  "Timeout exceeded while running \"" ++ pyListRepr c ++ "\""

/-- charm.py `config_changed` (lines 225-236): the delta between the
desired config and the stored (applied) config — every key of the desired
config that is absent from the stored config or maps to a different
value, paired with its new value.  Pure: a fresh dict is built. -/
def config_changed (new_config old_config : Config) : Config :=
  new_config.filter fun kv =>
    match dictGet old_config kv.1 with
    | none => true
    | some w => if w = kv.2 then false else true

/-- The fragment the self-healing check of `config_is_valid` searches the
Blocked status message for (charm.py line 247). -/
def selfHealFragment : String := "Can\x27t modify microcloud- keys after initialization:"

/-- The message `config_is_valid` blocks with on a forbidden `mode`
change (charm.py line 255). -/
def modeBlockMsg : String := "Can\x27t modify mode after initialization"

/-- The self-heal condition on the current unit status:
`isinstance(self.unit.status, BlockedStatus) and selfHealFragment in
self.unit.status.message`. -/
def selfHealOk : UnitStatus → Bool
  | UnitStatus.blocked m => pyIn selfHealFragment m
  | _ => false

/-- charm.py `config_is_valid` (lines 238-258): if the delta is empty and
the unit is Blocked with a message containing `selfHealFragment`, reset
to Active; then reject the delta if it touches `mode` after
initialization, blocking the unit. -/
def config_is_valid (desired : Config) (s : CharmState) : Bool × CharmState :=
  let changed := config_changed desired s.storedConfig
  let s1 := if changed.isEmpty && selfHealOk s.status then
      { s with status := UnitStatus.active }
    else s
  if (changed.any fun kv => kv.1 == "mode") && s.microcloudInit then
    (false, { s1 with status := UnitStatus.blocked modeBlockMsg })
  else
    (true, s1)

/-- Set a maintenance status (charm.py `unit_maintenance`). -/
def withMaint (s : CharmState) (m : String) : CharmState :=
  { s with status := UnitStatus.maintenance m }

/-- The channels resolved by the prologue of `snap_install_microcloud`
(charm.py lines 296-328), along with the state after its maintenance
status messages.  `cephCh`/`ovnCh` are `some` exactly when the
corresponding subsystem flag is truthy. -/
structure Resolved where
  lxdCh : Val
  mcCh : Val
  cephCh : Option Val
  ovnCh : Option Val
  preState : CharmState
deriving DecidableEq, Repr

/-- Channel resolution for an optional subsystem (charm.py lines 312-319
for microceph, 321-328 for microovn): read the enabling flag, and when
truthy read the channel selector and announce the install. -/
def resolveOptChannel (desired : Config) (flagKey chKey pkgName : String)
    (s : CharmState) : Except (CharmState × PyError) (Option Val × CharmState) :=
  match dictGet desired flagKey with
  | none => Except.error (s, PyError.keyError flagKey)
  | some flagVal =>
    if flagVal.truthy then
      match dictGet desired chKey with
      | none => Except.error (s, PyError.keyError chKey)
      | some ch =>
        Except.ok (some ch,
          withMaint s ("Installing " ++ pkgName ++ " snap (channel=" ++
            (if ch.truthy then ch.pyStr else "latest/stable") ++ ")"))
    else
      Except.ok (none, s)

/-- The prologue of `snap_install_microcloud` (charm.py lines 296-328).
charm.py line 300 reads the local variable `microcloud_channel` before its
assignment on line 305, so a truthy `snap-channel-lxd` raises
`UnboundLocalError` before anything else happens; otherwise the defaulted
channel names are used only inside the maintenance status messages. -/
def resolveChannels (desired : Config) (s : CharmState) :
    Except (CharmState × PyError) Resolved :=
  match dictGet desired "snap-channel-lxd" with
  | none => Except.error (s, PyError.keyError "snap-channel-lxd")
  | some lxdCh =>
    if lxdCh.truthy then
      Except.error (s, PyError.unboundLocal "microcloud_channel")
    else
      match dictGet desired "snap-channel-microcloud" with
      | none =>
        Except.error (withMaint s "Installing LXD snap (channel=latest/stable)",
          PyError.keyError "snap-channel-microcloud")
      | some mcCh =>
        match resolveOptChannel desired "microceph" "snap-channel-microceph" "Microceph"
            (withMaint (withMaint s "Installing LXD snap (channel=latest/stable)")
              ("Installing Microcloud snap (channel=" ++
                (if mcCh.truthy then mcCh.pyStr else "latest/stable") ++ ")")) with
        | Except.error e => Except.error e
        | Except.ok (cephCh, s3) =>
          match resolveOptChannel desired "microovn" "snap-channel-microovn" "MicroOVN" s3 with
          | Except.error e => Except.error e
          | Except.ok (ovnCh, s4) => Except.ok ⟨lxdCh, mcCh, cephCh, ovnCh, s4⟩

/-- The argument vectors run by the try-block of `snap_install_microcloud`
(charm.py lines 330-392), in order.  Note the commands interpolate the raw
channel values (`--channel={lxd_channel}`), not the defaulted
`*_channel_name` variables. -/
def installCmds (lxdCh mcCh : Val) (cephCh ovnCh : Option Val) (vlx : Bool) :
    List (List String) :=
  [["snap", "install", "lxd", "--channel=" ++ lxdCh.pyStr, "--cohort=+"],
   ["snap", "refresh", "lxd", "--channel=" ++ lxdCh.pyStr, "--cohort=+"]] ++
  (if vlx then [["lxd.migrate", "-yes"]] else []) ++
  [["snap", "install", "microcloud", "--channel=" ++ mcCh.pyStr, "--cohort=+"],
   ["snap", "refresh", "microcloud", "--channel=" ++ mcCh.pyStr, "--cohort=+"]] ++
  (match cephCh with
   | some ch =>
     [["snap", "install", "microceph", "--channel=" ++ ch.pyStr, "--cohort=+"],
      ["snap", "refresh", "microceph", "--channel=" ++ ch.pyStr, "--cohort=+"]]
   | none => []) ++
  (match ovnCh with
   | some ch =>
     [["snap", "install", "microovn", "--channel=" ++ ch.pyStr, "--cohort=+"],
      ["snap", "refresh", "microovn", "--channel=" ++ ch.pyStr, "--cohort=+"]]
   | none => [])

/-- Run commands in order; the first failure blocks the unit with the
command and its error detail (distinct message for timeouts) and raises
`RuntimeError` (charm.py lines 393-398). -/
def runSeq (ex : List String → ExecResult) :
    List (List String) → CharmState → CharmState × Option PyError
  | [], s => (s, none)
  | c :: rest, s =>
    match ex c with
    | ExecResult.ok => runSeq ex rest s
    | ExecResult.fail err rc =>
      ({ s with status := UnitStatus.blocked (failMsg c err rc) }, some PyError.runtimeError)
    | ExecResult.timeout =>
      ({ s with status := UnitStatus.blocked (timeoutMsg c) }, some PyError.runtimeError)

/-- The post-success persistence of `snap_install_microcloud` (charm.py
lines 400-406): only the snap-channel keys are written back to
`_stored.config`, the optional ones only when their subsystem is enabled. -/
def persistChannels (c : Config) (r : Resolved) : Config :=
  dictSetOpt
    (dictSetOpt
      (dictSet (dictSet c "snap-channel-lxd" r.lxdCh) "snap-channel-microcloud" r.mcCh)
      "snap-channel-microceph" r.cephCh)
    "snap-channel-microovn" r.ovnCh

/-- charm.py `snap_install_microcloud` (lines 296-406): resolve channels
(announcing each install), run the snap commands, and persist the channel
keys only after every command succeeded.  `vlx` models
`os.path.exists("/var/lib/lxd")`. -/
def snap_install_microcloud (desired : Config) (ex : List String → ExecResult)
    (vlx : Bool) (s : CharmState) : CharmState × Option PyError :=
  match resolveChannels desired s with
  | Except.error e => (e.1, some e.2)
  | Except.ok r =>
    match runSeq ex (installCmds r.lxdCh r.mcCh r.cephCh r.ovnCh vlx) r.preState with
    | (s2, some e) => (s2, some e)
    | (s2, none) => ({ s2 with storedConfig := persistChannels s2.storedConfig r }, none)

/-- Is this one of the four keys whose change routes through
`snap_install_microcloud` (charm.py lines 164-169)? -/
def isSnapChannelKey (k : String) : Bool :=
  k == "snap-channel-lxd" || k == "snap-channel-microcloud" ||
  k == "snap-channel-microceph" || k == "snap-channel-microovn"

/-- Does the delta contain a snap-channel key? -/
def hasSnapKey (l : Config) : Bool := l.any fun kv => isSnapChannelKey kv.1

/-- charm.py `_on_charm_config_changed` (lines 141-183): validate, compute
the delta, drive the snap install when a channel key changed; a
`RuntimeError` from the install blocks the unit with the list of changed
keys and defers the event; any other exception escapes the handler. -/
def on_charm_config_changed (desired : Config) (ex : List String → ExecResult)
    (vlx : Bool) (s : CharmState) : CharmState × Outcome :=
  match config_is_valid desired s with
  | (false, s1) => (s1, Outcome.normal)
  | (true, s1) =>
    let changed := config_changed desired s1.storedConfig
    if changed.isEmpty then
      (s1, Outcome.normal)
    else if hasSnapKey changed then
      match snap_install_microcloud desired ex vlx s1 with
      | (s2, none) => ({ s2 with status := UnitStatus.active }, Outcome.normal)
      | (s2, some PyError.runtimeError) =>
        let msg := "Failed to apply some configuration change(s): " ++
          String.intercalate ", " (changed.map Prod.fst)
        ({ s2 with status := UnitStatus.blocked msg }, Outcome.deferred)
      | (s2, some e) => (s2, Outcome.crashed e)
    else
      ({ s1 with status := UnitStatus.active }, Outcome.normal)

/-- The node-local coordination state: the group-scoped (application data
bag) value of `microcloud_initialized`, the local
`_stored.microcloud_initialized` flag, and the unit status. -/
structure CoordState where
  appInit : String
  localInit : Bool
  status : UnitStatus
deriving DecidableEq, Repr

/-- One delivery of the cluster-relation-created event: the
`ready_to_bootstrap` values of the current peer units, and the outcome
`microcloud init --auto` would report if invoked. -/
structure CreatedEvent where
  peerReady : List String
  initRes : ExecResult
deriving DecidableEq, Repr

/-- Result of one handler invocation: the successor state, whether the
external cluster command was invoked, and whether the event was deferred. -/
structure HandlerOut where
  state : CoordState
  called : Bool
  deferred : Bool
deriving DecidableEq, Repr

/-- The quorum condition of `_on_cluster_relation_created` (charm.py
lines 191-194): at least two peer units and every one of them has
published `ready_to_bootstrap = "True"`. -/
def quorumOk (ready : List String) : Bool :=
  decide (2 ≤ ready.length) && ready.all fun r => r == "True"

def initCmd : List String := ["microcloud", "init", "--auto"]

def addCmd : List String := ["microcloud", "add", "--auto"]

/-- charm.py `_on_cluster_relation_created` (lines 185-203): if the group
record already reads "True", just set the local flag; else if quorum is
met, run `microcloud init --auto` (via `microcloud_init`, which first sets
a maintenance status), on success write the group record and the local
flag, on failure block the unit and defer; otherwise do nothing. -/
def on_cluster_relation_created (ev : CreatedEvent) (s : CoordState) : HandlerOut :=
  if s.appInit = "True" then
    ⟨{ s with localInit := true }, false, false⟩
  else if quorumOk ev.peerReady then
    match ev.initRes with
    | ExecResult.ok =>
      ⟨⟨"True", true, UnitStatus.maintenance "Initializing Microcloud"⟩, true, false⟩
    | ExecResult.fail err rc =>
      ⟨{ s with status := UnitStatus.blocked (failMsg initCmd err rc) }, true, true⟩
    | ExecResult.timeout =>
      ⟨{ s with status := UnitStatus.blocked (timeoutMsg initCmd) }, true, true⟩
  else
    ⟨s, false, false⟩

/-- charm.py `_on_cluster_relation_joined` (lines 205-217): unless the
group record reads "True", do nothing; otherwise run
`microcloud add --auto` (via `microcloud_add`), blocking and deferring on
failure.  No local already-joined flag is consulted. -/
def on_cluster_relation_joined (res : ExecResult) (s : CoordState) : HandlerOut :=
  if s.appInit ≠ "True" then
    ⟨s, false, false⟩
  else
    match res with
    | ExecResult.ok =>
      ⟨{ s with status := UnitStatus.maintenance "Adding node to Microcloud" }, true, false⟩
    | ExecResult.fail err rc =>
      ⟨{ s with status := UnitStatus.blocked (failMsg addCmd err rc) }, true, true⟩
    | ExecResult.timeout =>
      ⟨{ s with status := UnitStatus.blocked (timeoutMsg addCmd) }, true, true⟩

/-- Replay a sequence of relation-created deliveries, counting the
successful invocations of `microcloud init`. -/
def runCreated : List CreatedEvent → CoordState → CoordState × Nat
  | [], s => (s, 0)
  | ev :: rest, s =>
    let r := on_cluster_relation_created ev s
    let t := runCreated rest r.state
    (t.1, (if r.called = true ∧ ev.initRes = ExecResult.ok then 1 else 0) + t.2)

/-- Replay a sequence of relation-joined deliveries, counting the
invocations of `microcloud add`. -/
def runJoined : List ExecResult → CoordState → CoordState × Nat
  | [], s => (s, 0)
  | r :: rest, s =>
    let h := on_cluster_relation_joined r s
    let t := runJoined rest h.state
    (t.1, (if h.called = true then 1 else 0) + t.2)

/-- An executor on which every command succeeds. -/
def exOk : List String → ExecResult := fun _ => ExecResult.ok

/-- Concrete desired config exercising the install path: a `mode` key plus
the keys `snap_install_microcloud` reads, with empty channel selectors and
both optional subsystems disabled. -/
def d5 : Config :=
  [("mode", Val.vStr "standalone"), ("snap-channel-lxd", Val.vStr ""),
   ("snap-channel-microcloud", Val.vStr ""), ("microceph", Val.vBool false),
   ("microovn", Val.vBool false)]

/-- A fresh unit: nothing applied yet. -/
def s5 : CharmState := ⟨[], false, UnitStatus.active⟩

/-- Concrete desired config with both optional subsystems enabled: a
`mode` key, empty lxd/microcloud/microovn channel selectors, and a
non-empty microceph channel. -/
def d5b : Config :=
  [("mode", Val.vStr "standalone"), ("snap-channel-lxd", Val.vStr ""),
   ("snap-channel-microcloud", Val.vStr ""), ("microceph", Val.vBool true),
   ("snap-channel-microceph", Val.vStr "quincy/stable"), ("microovn", Val.vBool true),
   ("snap-channel-microovn", Val.vStr "")]

/-- The state `snap_install_microcloud d5b exOk false s5` ends in: all
four channel keys persisted, `mode` and the subsystem flags not. -/
def s5bpost : CharmState :=
  ⟨[("snap-channel-lxd", Val.vStr ""), ("snap-channel-microcloud", Val.vStr ""),
    ("snap-channel-microceph", Val.vStr "quincy/stable"),
    ("snap-channel-microovn", Val.vStr "")],
   false, UnitStatus.maintenance "Installing MicroOVN snap (channel=latest/stable)"⟩

/- ------------------------------------------------------------------ -/
/- Helper lemmas                                                      -/
/- ------------------------------------------------------------------ -/

theorem dictGet_of_mem {l : Config} {k : String} {v : Val}
    (hnd : (l.map Prod.fst).Nodup) (h : (k, v) ∈ l) : dictGet l k = some v := by
  induction l with
  | nil => cases h
  | cons hd tl ih =>
    obtain ⟨k0, v0⟩ := hd
    simp only [List.map_cons, List.nodup_cons] at hnd
    rcases List.mem_cons.mp h with heq | hmem
    · rw [Prod.mk.injEq] at heq
      obtain ⟨hk, hv⟩ := heq
      subst hk; subst hv
      simp [dictGet]
    · have hk : k0 ≠ k := by
        intro hkk
        apply hnd.1
        rw [hkk]
        exact List.mem_map.mpr ⟨(k, v), hmem, rfl⟩
      simpa [dictGet, hk] using ih hnd.2 hmem

theorem changed_pred_iff (applied : Config) (k : String) (v : Val) :
    ((match dictGet applied k with
      | none => true
      | some w => if w = v then false else true) = true) ↔ dictGet applied k ≠ some v := by
  cases hdg : dictGet applied k with
  | none => simp
  | some w =>
    by_cases hw : w = v
    · subst hw; simp
    · simp [hw]

theorem mem_config_changed {desired applied : Config} {k : String} {v : Val} :
    (k, v) ∈ config_changed desired applied ↔
      ((k, v) ∈ desired ∧ dictGet applied k ≠ some v) := by
  simp only [config_changed, List.mem_filter]
  exact and_congr_right fun _ => changed_pred_iff applied k v

theorem config_changed_eq_nil {desired applied : Config}
    (hnd : (desired.map Prod.fst).Nodup)
    (heq : ∀ k, dictGet desired k = dictGet applied k) :
    config_changed desired applied = [] := by
  cases hc : config_changed desired applied with
  | nil => rfl
  | cons kv t =>
    obtain ⟨k, v⟩ := kv
    have hm : (k, v) ∈ config_changed desired applied := by
      rw [hc]; exact List.mem_cons_self _ _
    rw [mem_config_changed] at hm
    exact absurd ((heq k).symm.trans (dictGet_of_mem hnd hm.1)) hm.2

theorem dictGet_dictSet_self (c : Config) (k : String) (v : Val) :
    dictGet (dictSet c k v) k = some v := by
  induction c with
  | nil => simp [dictSet, dictGet]
  | cons hd tl ih =>
    obtain ⟨k0, v0⟩ := hd
    by_cases hk : k0 = k
    · subst hk; simp [dictSet, dictGet]
    · simp [dictSet, dictGet, hk, ih]

theorem dictGet_dictSet_ne (c : Config) (k k2 : String) (v : Val) (h : k ≠ k2) :
    dictGet (dictSet c k v) k2 = dictGet c k2 := by
  induction c with
  | nil => simp [dictSet, dictGet, h]
  | cons hd tl ih =>
    obtain ⟨k0, v0⟩ := hd
    by_cases hk : k0 = k
    · subst hk
      simp [dictSet, dictGet, h]
    · have hset : dictSet ((k0, v0) :: tl) k v = (k0, v0) :: dictSet tl k v := by
        simp [dictSet, hk]
      rw [hset]
      by_cases hk2 : k0 = k2 <;> simp [dictGet, hk2, ih]

theorem dictGet_dictSetOpt_ne (c : Config) (k k2 : String) (ov : Option Val)
    (h : k ≠ k2) : dictGet (dictSetOpt c k ov) k2 = dictGet c k2 := by
  cases ov with
  | none => rfl
  | some v => exact dictGet_dictSet_ne c k k2 v h

/- ------------------------------------------------------------------ -/
/- Claims C4, C2, C3                                                  -/
/- ------------------------------------------------------------------ -/

/-- Claim C4: for all desired and applied config maps, `config_changed`
returns exactly the pairs `(k, v)` such that `(k, v)` is in the desired
config and `k` is absent from the applied config or mapped there to a
different value; and when the two maps agree on every key the delta is
empty.  (The embedding is a pure function of its two arguments, so it has
no side effects on either map by construction.) -/
theorem claim_C4_delta_spec (desired applied : Config)
    (hnd : (desired.map Prod.fst).Nodup) :
    (∀ k v, ((k, v) ∈ config_changed desired applied ↔
      ((k, v) ∈ desired ∧ dictGet applied k ≠ some v))) ∧
    ((∀ k, dictGet desired k = dictGet applied k) →
      config_changed desired applied = []) :=
  ⟨fun _ _ => mem_config_changed, fun heq => config_changed_eq_nil hnd heq⟩

/-- Witness for C4 at a concrete pair of equal maps. -/
theorem claim_C4_witness :
    (("mode", Val.vStr "x") ∈ config_changed d5 d5 ↔
      (("mode", Val.vStr "x") ∈ d5 ∧ dictGet d5 "mode" ≠ some (Val.vStr "x"))) ∧
    config_changed d5 d5 = [] := by
  have h := claim_C4_delta_spec d5 d5 (by decide)
  exact ⟨h.1 "mode" (Val.vStr "x"), h.2 fun k => rfl⟩

/-- The unit state claim C2 starts from: empty delta (desired equals the
stored config, both empty), Blocked with exactly the message the mode
rejection writes, after initialization. -/
def sBlockedMode : CharmState := ⟨[], true, UnitStatus.blocked modeBlockMsg⟩

/-- Claim C2 (code bug): with an empty delta and the unit Blocked with
exactly the mode-violation message that validation itself records
(`modeBlockMsg`, charm.py line 255), running `config_is_valid` does NOT
reset the status to Active: the self-heal test (charm.py line 247)
searches the message for `selfHealFragment`, a string the blocking path
never writes, so the condition is false and the unit stays Blocked.  The
third conjunct exhibits the mismatch between the two strings. -/
theorem claim_C2_selfheal_dead :
    config_is_valid [] sBlockedMode = (true, sBlockedMode) ∧
    (config_is_valid [("mode", Val.vStr "cluster")]
      ⟨[], true, UnitStatus.active⟩).2.status = UnitStatus.blocked modeBlockMsg ∧
    pyIn selfHealFragment modeBlockMsg = false := by
  refine ⟨by decide, by decide, by decide⟩

/-- Claim C3: whenever the delta contains the key `mode` and the local
initialized flag is set, `config_is_valid` rejects (returns false),
blocks the unit with a message naming the offending key (`mode` occurs in
the message), and leaves the stored config untouched; consequently
`_on_charm_config_changed` returns immediately with that blocked state,
never consulting the executor (the result is the same for every `ex`),
so no install is driven. -/
theorem claim_C3_mode_immutable (desired : Config) (s : CharmState)
    (hmode : (config_changed desired s.storedConfig).any (fun kv => kv.1 == "mode") = true)
    (hinit : s.microcloudInit = true) :
    config_is_valid desired s = (false, { s with status := UnitStatus.blocked modeBlockMsg }) ∧
    pyIn "mode" modeBlockMsg = true ∧
    ∀ ex vlx, on_charm_config_changed desired ex vlx s =
      ({ s with status := UnitStatus.blocked modeBlockMsg }, Outcome.normal) := by
  have hne : (config_changed desired s.storedConfig).isEmpty = false := by
    cases hc : config_changed desired s.storedConfig with
    | nil => rw [hc] at hmode; simp at hmode
    | cons a t => rfl
  have hvalid : config_is_valid desired s =
      (false, { s with status := UnitStatus.blocked modeBlockMsg }) := by
    simp [config_is_valid, hne, hmode, hinit]
  refine ⟨hvalid, by decide, fun ex vlx => ?_⟩
  simp [on_charm_config_changed, hvalid]

def d3 : Config := [("mode", Val.vStr "cluster")]

def s3 : CharmState := ⟨[], true, UnitStatus.active⟩

/-- Witness for C3 at a concrete mode change after initialization. -/
theorem claim_C3_witness :
    config_is_valid d3 s3 = (false, { s3 with status := UnitStatus.blocked modeBlockMsg }) ∧
    on_charm_config_changed d3 exOk false s3 =
      ({ s3 with status := UnitStatus.blocked modeBlockMsg }, Outcome.normal) := by
  have h := claim_C3_mode_immutable d3 s3 (by decide) rfl
  exact ⟨h.1, h.2.2 exOk false⟩

/- ------------------------------------------------------------------ -/
/- Coordinator lemmas and claims C1, C9, C6                           -/
/- ------------------------------------------------------------------ -/

theorem created_appInit_true (ev : CreatedEvent) (s : CoordState)
    (h : s.appInit = "True") :
    on_cluster_relation_created ev s = ⟨{ s with localInit := true }, false, false⟩ := by
  simp [on_cluster_relation_created, h]

theorem created_no_call (ev : CreatedEvent) (s : CoordState)
    (h : s.appInit = "True") :
    (on_cluster_relation_created ev s).called = false := by
  rw [created_appInit_true ev s h]

/-- The handler preserves the local invariant: whenever the local
initialized flag is set, the group record reads "True". -/
theorem created_inv (ev : CreatedEvent) (s : CoordState)
    (h : s.localInit = true → s.appInit = "True") :
    (on_cluster_relation_created ev s).state.localInit = true →
      (on_cluster_relation_created ev s).state.appInit = "True" := by
  by_cases happ : s.appInit = "True"
  · rw [created_appInit_true ev s happ]
    intro _
    exact happ
  · by_cases hq : quorumOk ev.peerReady = true
    · cases hres : ev.initRes with
      | ok => intro _; simp [on_cluster_relation_created, happ, hq, hres]
      | fail err rc =>
        simp only [on_cluster_relation_created, happ, hq, hres, if_neg, if_pos]
        simpa using h
      | timeout =>
        simp only [on_cluster_relation_created, happ, hq, hres, if_neg, if_pos]
        simpa using h
    · have hq2 : quorumOk ev.peerReady = false := by simpa using hq
      simp only [on_cluster_relation_created, happ, hq2]
      simpa using h

theorem runCreated_inv (evs : List CreatedEvent) :
    ∀ s : CoordState, (s.localInit = true → s.appInit = "True") →
      ((runCreated evs s).1.localInit = true → (runCreated evs s).1.appInit = "True") := by
  induction evs with
  | nil => intro s h; exact h
  | cons ev rest ih =>
    intro s h
    exact ih (on_cluster_relation_created ev s).state (created_inv ev s h)

/-- Once the group record reads "True", replay performs no successful
init and the record stays "True". -/
theorem runCreated_of_true (evs : List CreatedEvent) :
    ∀ s : CoordState, s.appInit = "True" →
      (runCreated evs s).2 = 0 ∧ (runCreated evs s).1.appInit = "True" := by
  induction evs with
  | nil => intro s h; exact ⟨rfl, h⟩
  | cons ev rest ih =>
    intro s h
    have hih := ih { s with localInit := true } h
    simp only [runCreated, created_appInit_true ev s h]
    refine ⟨?_, hih.2⟩
    simp [hih.1]

theorem runCreated_le_one (evs : List CreatedEvent) :
    ∀ s : CoordState, (runCreated evs s).2 ≤ 1 := by
  induction evs with
  | nil => intro s; simp [runCreated]
  | cons ev rest ih =>
    intro s
    simp only [runCreated]
    by_cases happ : s.appInit = "True"
    · rw [created_appInit_true ev s happ]
      have h0 := runCreated_of_true rest { s with localInit := true } happ
      simp [h0.1]
    · by_cases hq : quorumOk ev.peerReady = true
      · cases hres : ev.initRes with
        | ok =>
          have hstep : on_cluster_relation_created ev s =
              ⟨⟨"True", true, UnitStatus.maintenance "Initializing Microcloud"⟩,
                true, false⟩ := by
            simp [on_cluster_relation_created, happ, hq, hres]
          rw [hstep]
          have h0 := runCreated_of_true rest
            ⟨"True", true, UnitStatus.maintenance "Initializing Microcloud"⟩ rfl
          simp [h0.1, hres]
        | fail err rc =>
          have hstep : on_cluster_relation_created ev s =
              ⟨{ s with status := UnitStatus.blocked (failMsg initCmd err rc) },
                true, true⟩ := by
            simp [on_cluster_relation_created, happ, hq, hres]
          rw [hstep]
          have hrest := ih { s with status := UnitStatus.blocked (failMsg initCmd err rc) }
          simpa [hres] using hrest
        | timeout =>
          have hstep : on_cluster_relation_created ev s =
              ⟨{ s with status := UnitStatus.blocked (timeoutMsg initCmd) },
                true, true⟩ := by
            simp [on_cluster_relation_created, happ, hq, hres]
          rw [hstep]
          have hrest := ih { s with status := UnitStatus.blocked (timeoutMsg initCmd) }
          simpa [hres] using hrest
      · have hq2 : quorumOk ev.peerReady = false := by simpa using hq
        have hstep : on_cluster_relation_created ev s = ⟨s, false, false⟩ := by
          simp [on_cluster_relation_created, happ, hq2]
        rw [hstep]
        simpa using ih s

/-- Claim C1: starting from a fresh node (group record unset, local flag
clear), any sequence of deliveries of the cluster-relation-created event
performs at most one successful `microcloud init`; and once the final
state records success (the group record reads "True" or the local
initialized flag is set), one more delivered membership event performs no
init call at all. -/
theorem claim_C1_init_at_most_once (evs : List CreatedEvent) (st : UnitStatus) :
    (runCreated evs ⟨"", false, st⟩).2 ≤ 1 ∧
    ∀ ev : CreatedEvent,
      ((runCreated evs ⟨"", false, st⟩).1.appInit = "True" ∨
       (runCreated evs ⟨"", false, st⟩).1.localInit = true) →
      (on_cluster_relation_created ev (runCreated evs ⟨"", false, st⟩).1).called = false := by
  refine ⟨runCreated_le_one evs _, fun ev hdisj => ?_⟩
  have hinv := runCreated_inv evs ⟨"", false, st⟩ (by intro h; simp at h)
  have happ : (runCreated evs ⟨"", false, st⟩).1.appInit = "True" := by
    rcases hdisj with h | h
    · exact h
    · exact hinv h
  exact created_no_call ev _ happ

/-- A quorum event on which init succeeds. -/
def evQ : CreatedEvent := ⟨["True", "True"], ExecResult.ok⟩

/-- Witness for C1: a double delivery of the quorum event yields exactly
one successful init, and a third delivery calls no init. -/
theorem claim_C1_witness :
    (runCreated [evQ, evQ] ⟨"", false, UnitStatus.active⟩).2 ≤ 1 ∧
    (on_cluster_relation_created evQ
      (runCreated [evQ, evQ] ⟨"", false, UnitStatus.active⟩).1).called = false :=
  ⟨(claim_C1_init_at_most_once [evQ, evQ] UnitStatus.active).1,
   (claim_C1_init_at_most_once [evQ, evQ] UnitStatus.active).2 evQ (Or.inl (by decide))⟩

/-- Claim C9: a membership event delivered while the group record does not
read "True" and the quorum condition is false is a complete no-op: the
handler returns the state unchanged, invokes no init and defers nothing
(hence writes no record and changes no status). -/
theorem claim_C9_quorum_wait_noop (s : CoordState) (ev : CreatedEvent)
    (h1 : s.appInit ≠ "True") (h2 : quorumOk ev.peerReady = false) :
    on_cluster_relation_created ev s = ⟨s, false, false⟩ := by
  simp [on_cluster_relation_created, h1, h2]

def s9 : CoordState := ⟨"", false, UnitStatus.waiting
  "Microcloud installed successfully, waiting for leader node to initialize the cluster"⟩

/-- Three peers of which one has not published readiness. -/
def ev9 : CreatedEvent := ⟨["True", "True", ""], ExecResult.ok⟩

/-- Witness for C9: a 3-peer group with one unready member. -/
theorem claim_C9_witness : on_cluster_relation_created ev9 s9 = ⟨s9, false, false⟩ :=
  claim_C9_quorum_wait_noop s9 ev9 (by decide) (by decide)

/-- Counterexample to C6 as stated: with the group record reading "True"
and even with the local initialized flag already set, two deliveries of
the joined event invoke `microcloud add` twice — there is no local
already-joined guard. -/
theorem claim_C6_counterexample :
    (runJoined [ExecResult.ok, ExecResult.ok] ⟨"True", true, UnitStatus.active⟩).2 = 2 := by
  decide

/-- Claim C6 as amended: the only guard in `_on_cluster_relation_joined`
is the group record — when it does not read "True" no join is ever
invoked, and when it does read "True" every delivery of the joined event
invokes `microcloud add` once more (the handler keeps no local
already-joined flag, so redelivered observations repeat the call). -/
theorem claim_C6_amended (evs : List ExecResult) :
    ∀ s : CoordState,
      (runJoined evs s).2 = if s.appInit = "True" then evs.length else 0 := by
  induction evs with
  | nil =>
    intro s
    by_cases h : s.appInit = "True" <;> simp [runJoined, h]
  | cons r rest ih =>
    intro s
    by_cases h : s.appInit = "True"
    · have hcall : (on_cluster_relation_joined r s).called = true := by
        cases r <;> simp [on_cluster_relation_joined, h]
      have happ : (on_cluster_relation_joined r s).state.appInit = "True" := by
        cases r <;> simp [on_cluster_relation_joined, h]
      simp only [runJoined]
      rw [ih]
      simp [hcall, happ, h]
      omega
    · have hstep : on_cluster_relation_joined r s = ⟨s, false, false⟩ := by
        simp [on_cluster_relation_joined, h]
      simp only [runJoined, hstep]
      rw [ih]
      simp [h]

/- ------------------------------------------------------------------ -/
/- Install-path lemmas and claims C5, C7, C8, C10                     -/
/- ------------------------------------------------------------------ -/

theorem runSeq_storedConfig (ex : List String → ExecResult)
    (cmds : List (List String)) (s : CharmState) :
    ((runSeq ex cmds s).1).storedConfig = s.storedConfig := by
  induction cmds with
  | nil => rfl
  | cons c rest ih =>
    cases hec : ex c with
    | ok => simpa [runSeq, hec] using ih
    | fail err rc => simp [runSeq, hec]
    | timeout => simp [runSeq, hec]

theorem runSeq_err (ex : List String → ExecResult) (cmds : List (List String)) :
    ∀ (s s2 : CharmState) (e : PyError), runSeq ex cmds s = (s2, some e) →
      e = PyError.runtimeError ∧
      ∃ c, (∃ err rc, ex c = ExecResult.fail err rc ∧
              s2.status = UnitStatus.blocked (failMsg c err rc)) ∨
           (ex c = ExecResult.timeout ∧ s2.status = UnitStatus.blocked (timeoutMsg c)) := by
  induction cmds with
  | nil =>
    intro s s2 e h
    simp [runSeq] at h
  | cons c rest ih =>
    intro s s2 e h
    cases hec : ex c with
    | ok =>
      have h2 : runSeq ex rest s = (s2, some e) := by
        simpa [runSeq, hec] using h
      exact ih s s2 e h2
    | fail err rc =>
      rw [runSeq, hec] at h
      rw [Prod.mk.injEq] at h
      obtain ⟨hs, he⟩ := h
      refine ⟨(Option.some.inj he).symm, c, Or.inl ⟨err, rc, hec, ?_⟩⟩
      rw [← hs]
    | timeout =>
      rw [runSeq, hec] at h
      rw [Prod.mk.injEq] at h
      obtain ⟨hs, he⟩ := h
      refine ⟨(Option.some.inj he).symm, c, Or.inr ⟨hec, ?_⟩⟩
      rw [← hs]

theorem resolveOpt_ok (desired : Config) (fk ck pn : String) (s : CharmState)
    (res : Option Val × CharmState)
    (h : resolveOptChannel desired fk ck pn s = Except.ok res) :
    res.2.storedConfig = s.storedConfig ∧ res.2.microcloudInit = s.microcloudInit := by
  unfold resolveOptChannel at h
  split at h
  · simp at h
  · split at h
    · split at h
      · simp at h
      · injection h with h
        subst h
        exact ⟨rfl, rfl⟩
    · injection h with h
      subst h
      exact ⟨rfl, rfl⟩

theorem resolveOpt_err (desired : Config) (fk ck pn : String) (s : CharmState)
    (e : CharmState × PyError)
    (h : resolveOptChannel desired fk ck pn s = Except.error e) :
    e.2 ≠ PyError.runtimeError := by
  unfold resolveOptChannel at h
  split at h
  · injection h with h
    subst h
    simp
  · split at h
    · split at h
      · injection h with h
        subst h
        simp
      · simp at h
    · simp at h

theorem resolve_ok (desired : Config) (s : CharmState) (r : Resolved)
    (h : resolveChannels desired s = Except.ok r) :
    dictGet desired "snap-channel-lxd" = some r.lxdCh ∧
    dictGet desired "snap-channel-microcloud" = some r.mcCh ∧
    r.preState.storedConfig = s.storedConfig := by
  unfold resolveChannels at h
  split at h
  · simp at h
  next lxdCh hlxd =>
    split at h
    · simp at h
    · split at h
      · simp at h
      next mcCh hmc =>
        split at h
        · simp at h
        next cephCh s3 hceph =>
          split at h
          · simp at h
          next ovnCh s4 hovn =>
            injection h with h
            subst h
            have e3 := (resolveOpt_ok desired "microceph" "snap-channel-microceph"
              "Microceph" _ _ hceph).1
            have e4 := (resolveOpt_ok desired "microovn" "snap-channel-microovn"
              "MicroOVN" _ _ hovn).1
            exact ⟨hlxd, hmc, e4.trans e3⟩

theorem resolve_err (desired : Config) (s : CharmState) (e : CharmState × PyError)
    (h : resolveChannels desired s = Except.error e) :
    e.2 ≠ PyError.runtimeError := by
  unfold resolveChannels at h
  split at h
  · injection h with h
    subst h
    simp
  · split at h
    · injection h with h
      subst h
      simp
    · split at h
      · injection h with h
        subst h
        simp
      · split at h
        next hceph =>
          injection h with h
          subst h
          exact resolveOpt_err _ _ _ _ _ _ hceph
        next cephCh s3 hceph =>
          split at h
          next hovn =>
            injection h with h
            subst h
            exact resolveOpt_err _ _ _ _ _ _ hovn
          · simp at h

theorem snap_install_ok (desired : Config) (ex : List String → ExecResult)
    (vlx : Bool) (s s2 : CharmState)
    (h : snap_install_microcloud desired ex vlx s = (s2, none)) :
    ∃ r : Resolved, resolveChannels desired s = Except.ok r ∧
      s2.storedConfig = persistChannels s.storedConfig r := by
  cases hr : resolveChannels desired s with
  | error e =>
    have h2 : (e.1, some e.2) = (s2, (none : Option PyError)) := by
      rw [← h]
      unfold snap_install_microcloud
      rw [hr]
    simp at h2
  | ok r =>
    refine ⟨r, rfl, ?_⟩
    cases hrun : runSeq ex (installCmds r.lxdCh r.mcCh r.cephCh r.ovnCh vlx) r.preState with
    | mk s3 oe =>
      cases oe with
      | some e =>
        have h2 : ((s3, some e) : CharmState × Option PyError) = (s2, none) := by
          rw [← h]
          unfold snap_install_microcloud
          simp only [hr, hrun]
        simp at h2
      | none =>
        have h2 : (({ s3 with storedConfig := persistChannels s3.storedConfig r },
            (none : Option PyError)) : CharmState × Option PyError) = (s2, none) := by
          rw [← h]
          unfold snap_install_microcloud
          simp only [hr, hrun]
        rw [Prod.mk.injEq] at h2
        obtain ⟨hs, -⟩ := h2
        have hst := runSeq_storedConfig ex
          (installCmds r.lxdCh r.mcCh r.cephCh r.ovnCh vlx) r.preState
        rw [hrun] at hst
        have hpre := (resolve_ok desired s r hr).2.2
        rw [← hs]
        show (persistChannels s3.storedConfig r) = persistChannels s.storedConfig r
        rw [show s3.storedConfig = s.storedConfig from hst.trans hpre]

theorem snap_install_fail (desired : Config) (ex : List String → ExecResult)
    (vlx : Bool) (s s2 : CharmState)
    (h : snap_install_microcloud desired ex vlx s = (s2, some PyError.runtimeError)) :
    s2.storedConfig = s.storedConfig ∧
    ∃ c, (∃ err rc, ex c = ExecResult.fail err rc ∧
            s2.status = UnitStatus.blocked (failMsg c err rc)) ∨
         (ex c = ExecResult.timeout ∧ s2.status = UnitStatus.blocked (timeoutMsg c)) := by
  cases hr : resolveChannels desired s with
  | error e =>
    have h2 : (e.1, some e.2) = (s2, some PyError.runtimeError) := by
      rw [← h]
      unfold snap_install_microcloud
      rw [hr]
    rw [Prod.mk.injEq] at h2
    obtain ⟨-, he⟩ := h2
    exact absurd (Option.some.inj he) (resolve_err desired s e hr)
  | ok r =>
    cases hrun : runSeq ex (installCmds r.lxdCh r.mcCh r.cephCh r.ovnCh vlx) r.preState with
    | mk s3 oe =>
      cases oe with
      | none =>
        have h2 : (({ s3 with storedConfig := persistChannels s3.storedConfig r },
            (none : Option PyError)) : CharmState × Option PyError) =
            (s2, some PyError.runtimeError) := by
          rw [← h]
          unfold snap_install_microcloud
          simp only [hr, hrun]
        simp at h2
      | some e2 =>
        have h2 : ((s3, some e2) : CharmState × Option PyError) =
            (s2, some PyError.runtimeError) := by
          rw [← h]
          unfold snap_install_microcloud
          simp only [hr, hrun]
        rw [Prod.mk.injEq] at h2
        obtain ⟨hs, he⟩ := h2
        have he2 : e2 = PyError.runtimeError := Option.some.inj he
        subst he2
        subst hs
        obtain ⟨-, hex⟩ := runSeq_err ex _ r.preState s3 PyError.runtimeError hrun
        have hst := runSeq_storedConfig ex
          (installCmds r.lxdCh r.mcCh r.cephCh r.ovnCh vlx) r.preState
        rw [hrun] at hst
        exact ⟨hst.trans (resolve_ok desired s r hr).2.2, hex⟩

theorem isEmpty_false_of_hasSnap {l : Config} (h : hasSnapKey l = true) :
    l.isEmpty = false := by
  cases l with
  | nil => simp [hasSnapKey] at h
  | cons a t => rfl

theorem valid_pair_eq (desired : Config) (s0 s : CharmState)
    (h1 : (config_is_valid desired s0).1 = true)
    (h2 : (config_is_valid desired s0).2 = s) :
    config_is_valid desired s0 = (true, s) := by
  rw [← Prod.mk.eta (p := config_is_valid desired s0), h1, h2]

/-- Counterexample to C5 as stated: with the concrete desired config `d5`
(which changes `mode` along with the snap-channel keys) every install
action succeeds, yet the delta recomputed immediately afterwards against
the same desired config is not empty (it still contains `mode`,
`microceph` and `microovn`, which the success path never persists). -/
theorem claim_C5_counterexample :
    (snap_install_microcloud d5 exOk false s5).2 = none ∧
    config_changed d5 (snap_install_microcloud d5 exOk false s5).1.storedConfig ≠ [] := by
  refine ⟨rfl, by decide⟩

theorem persist_lxd (c : Config) (r : Resolved) :
    dictGet (persistChannels c r) "snap-channel-lxd" = some r.lxdCh := by
  unfold persistChannels
  rw [dictGet_dictSetOpt_ne _ _ _ _ (by decide), dictGet_dictSetOpt_ne _ _ _ _ (by decide),
      dictGet_dictSet_ne _ _ _ _ (by decide), dictGet_dictSet_self]

theorem persist_mc (c : Config) (r : Resolved) :
    dictGet (persistChannels c r) "snap-channel-microcloud" = some r.mcCh := by
  unfold persistChannels
  rw [dictGet_dictSetOpt_ne _ _ _ _ (by decide), dictGet_dictSetOpt_ne _ _ _ _ (by decide),
      dictGet_dictSet_self]

theorem persist_ceph (c : Config) (r : Resolved) (ch : Val)
    (h : r.cephCh = some ch) :
    dictGet (persistChannels c r) "snap-channel-microceph" = some ch := by
  unfold persistChannels
  rw [dictGet_dictSetOpt_ne _ _ _ _ (by decide), h]
  simp only [dictSetOpt]
  exact dictGet_dictSet_self _ _ _

theorem persist_ovn (c : Config) (r : Resolved) (ch : Val)
    (h : r.ovnCh = some ch) :
    dictGet (persistChannels c r) "snap-channel-microovn" = some ch := by
  unfold persistChannels
  rw [h]
  simp only [dictSetOpt]
  exact dictGet_dictSet_self _ _ _

/-- When an optional subsystem resolves successfully and its enabling flag
is truthy, its channel selector was read and became the resolved channel. -/
theorem resolveOpt_ok_enabled (desired : Config) (fk ck pn : String) (s : CharmState)
    (res : Option Val × CharmState) (f : Val)
    (h : resolveOptChannel desired fk ck pn s = Except.ok res)
    (hf : dictGet desired fk = some f) (ht : f.truthy = true) :
    ∃ ch, dictGet desired ck = some ch ∧ res.1 = some ch := by
  unfold resolveOptChannel at h
  simp only [hf, ht, if_true] at h
  cases hc : dictGet desired ck with
  | none =>
    simp only [hc] at h
    simp at h
  | some ch =>
    simp only [hc] at h
    injection h with h
    exact ⟨ch, rfl, by rw [← h]⟩

/-- When `resolveChannels` succeeds and an optional subsystem flag in the
desired config is truthy, the corresponding resolved channel is `some` of
the channel-selector value from the desired config. -/
theorem resolve_ok_opt (desired : Config) (s : CharmState) (r : Resolved)
    (h : resolveChannels desired s = Except.ok r) :
    (∀ f, dictGet desired "microceph" = some f → f.truthy = true →
      ∃ ch, dictGet desired "snap-channel-microceph" = some ch ∧ r.cephCh = some ch) ∧
    (∀ f, dictGet desired "microovn" = some f → f.truthy = true →
      ∃ ch, dictGet desired "snap-channel-microovn" = some ch ∧ r.ovnCh = some ch) := by
  unfold resolveChannels at h
  split at h
  · simp at h
  next lxdCh hlxd =>
    split at h
    · simp at h
    · split at h
      · simp at h
      next mcCh hmc =>
        split at h
        · simp at h
        next cephCh s3 hceph =>
          split at h
          · simp at h
          next ovnCh s4 hovn =>
            injection h with h
            subst h
            constructor
            · intro f hf ht
              exact resolveOpt_ok_enabled desired "microceph" "snap-channel-microceph"
                "Microceph" _ _ f hceph hf ht
            · intro f hf ht
              exact resolveOpt_ok_enabled desired "microovn" "snap-channel-microovn"
                "MicroOVN" _ _ f hovn hf ht

/-- Claim C5 as amended: when `snap_install_microcloud` fully succeeds,
the delta recomputed against the same desired config contains none of the
persisted snap-channel keys: never `snap-channel-lxd` or
`snap-channel-microcloud`, and, whenever the `microceph`/`microovn` flag
in the desired config is truthy (the subsystem is enabled, so its channel
was persisted too), not `snap-channel-microceph`/`snap-channel-microovn`
either.  Keys outside the persisted channel set are never written to the
stored config by the success path and may remain in the delta. -/
theorem claim_C5_amended (desired : Config) (ex : List String → ExecResult)
    (vlx : Bool) (s s2 : CharmState)
    (hnd : (desired.map Prod.fst).Nodup)
    (h : snap_install_microcloud desired ex vlx s = (s2, none)) :
    ∀ k v, (k, v) ∈ config_changed desired s2.storedConfig →
      k ≠ "snap-channel-lxd" ∧ k ≠ "snap-channel-microcloud" ∧
      (∀ f, dictGet desired "microceph" = some f → f.truthy = true →
        k ≠ "snap-channel-microceph") ∧
      (∀ f, dictGet desired "microovn" = some f → f.truthy = true →
        k ≠ "snap-channel-microovn") := by
  obtain ⟨r, hr, hst⟩ := snap_install_ok desired ex vlx s s2 h
  obtain ⟨hlxd, hmc, -⟩ := resolve_ok desired s r hr
  obtain ⟨hceph, hovn⟩ := resolve_ok_opt desired s r hr
  intro k v hmem
  rw [mem_config_changed] at hmem
  obtain ⟨hdes, hne⟩ := hmem
  have hdget : dictGet desired k = some v := dictGet_of_mem hnd hdes
  refine ⟨?_, ?_, ?_, ?_⟩
  · intro hk
    subst hk
    apply hne
    rw [hst, persist_lxd, ← hlxd, hdget]
  · intro hk
    subst hk
    apply hne
    rw [hst, persist_mc, ← hmc, hdget]
  · intro f hf ht hk
    subst hk
    obtain ⟨ch, hch, hres⟩ := hceph f hf ht
    apply hne
    rw [hst, persist_ceph _ _ _ hres, ← hch, hdget]
  · intro f hf ht hk
    subst hk
    obtain ⟨ch, hch, hres⟩ := hovn f hf ht
    apply hne
    rw [hst, persist_ovn _ _ _ hres, ← hch, hdget]

/-- Witness for C5 (amended): a concrete fully successful run with both
optional subsystems enabled; `mode` is still in the recomputed delta, and
the amended theorem applies to it, including the enabled-subsystem
conjuncts. -/
theorem claim_C5_witness :
    ("mode", Val.vStr "standalone") ∈ config_changed d5b s5bpost.storedConfig ∧
    ("mode" ≠ "snap-channel-lxd" ∧ "mode" ≠ "snap-channel-microcloud" ∧
     "mode" ≠ "snap-channel-microceph" ∧ "mode" ≠ "snap-channel-microovn") := by
  have h := claim_C5_amended d5b exOk false s5 s5bpost (by decide) (by decide) "mode"
    (Val.vStr "standalone") (by decide)
  exact ⟨by decide, h.1, h.2.1,
    h.2.2.1 (Val.vBool true) (by decide) (by decide),
    h.2.2.2 (Val.vBool true) (by decide) (by decide)⟩

/-- Concrete config for C7: all channel selectors empty, optional
subsystems disabled. -/
def d7 : Config :=
  [("snap-channel-lxd", Val.vStr ""), ("snap-channel-microcloud", Val.vStr ""),
   ("microceph", Val.vBool false), ("microovn", Val.vBool false)]

def s7 : CharmState := ⟨[], false, UnitStatus.active⟩

/-- Claim C7 (code bug): with every channel selector empty, the run
succeeds and the status messages announce channel=latest/stable, but the
actual install/refresh commands interpolate the raw empty value — every
argument vector carries `--channel=` and none carries
`--channel=latest/stable`.  The defaulted `*_channel_name` variables of
charm.py lines 298-328 are used only in the messages, never in the
commands of lines 330-392. -/
theorem claim_C7_default_channel_bug :
    (snap_install_microcloud d7 exOk false s7).1.status =
      UnitStatus.maintenance "Installing Microcloud snap (channel=latest/stable)" ∧
    installCmds (Val.vStr "") (Val.vStr "") none none false =
      [["snap", "install", "lxd", "--channel=", "--cohort=+"],
       ["snap", "refresh", "lxd", "--channel=", "--cohort=+"],
       ["snap", "install", "microcloud", "--channel=", "--cohort=+"],
       ["snap", "refresh", "microcloud", "--channel=", "--cohort=+"]] ∧
    ((installCmds (Val.vStr "") (Val.vStr "") none none false).all
      fun c => c.all fun a => !(a == "--channel=latest/stable")) = true := by
  refine ⟨rfl, rfl, by decide⟩

/-- Claim C8: whenever an install action of `snap_install_microcloud`
fails (non-zero exit or timeout) the function leaves the stored applied
config untouched, blocks the unit with a message carrying the command and
its error detail (a distinct message for timeouts), and raises the
`RuntimeError` that `_on_charm_config_changed` turns into `event.defer()`
— the handler performs no in-process retry, it just defers. -/
theorem claim_C8_failure_handling (desired : Config) (ex : List String → ExecResult)
    (vlx : Bool) (s s2 : CharmState)
    (h : snap_install_microcloud desired ex vlx s = (s2, some PyError.runtimeError)) :
    s2.storedConfig = s.storedConfig ∧
    (∃ c, (∃ err rc, ex c = ExecResult.fail err rc ∧
            s2.status = UnitStatus.blocked (failMsg c err rc)) ∨
         (ex c = ExecResult.timeout ∧ s2.status = UnitStatus.blocked (timeoutMsg c))) ∧
    ∀ s0, (config_is_valid desired s0).1 = true → (config_is_valid desired s0).2 = s →
      hasSnapKey (config_changed desired s.storedConfig) = true →
      (on_charm_config_changed desired ex vlx s0).2 = Outcome.deferred := by
  obtain ⟨hstore, hex⟩ := snap_install_fail desired ex vlx s s2 h
  refine ⟨hstore, hex, fun s0 h1 h2 h3 => ?_⟩
  have hp := valid_pair_eq desired s0 s h1 h2
  have hne := isEmpty_false_of_hasSnap h3
  simp [on_charm_config_changed, hp, hne, h3, h]

def d8 : Config := d7

def ex8 : List String → ExecResult := fun _ => ExecResult.fail "boom" 1

def s08 : CharmState := ⟨[], false, UnitStatus.active⟩

/-- The state a failing run from `s08` ends in: blocked with the first
failing command and its stderr/return code. -/
def s8post : CharmState :=
  ⟨[], false, UnitStatus.blocked
    (failMsg ["snap", "install", "lxd", "--channel=", "--cohort=+"] "boom" 1)⟩

/-- Witness for C8 at a concrete failing executor. -/
theorem claim_C8_witness :
    s8post.storedConfig = s08.storedConfig ∧
    (on_charm_config_changed d8 ex8 false s08).2 = Outcome.deferred := by
  have h := claim_C8_failure_handling d8 ex8 false s08 s8post (by decide)
  exact ⟨h.1, h.2.2 s08 rfl rfl (by decide)⟩

/-- Claim C10: whenever the desired config carries a truthy (non-empty)
`snap-channel-lxd` value, `snap_install_microcloud` stops immediately
with `UnboundLocalError` for `microcloud_channel` (charm.py line 300
reads it before the assignment on line 305): the state is returned
untouched — no install completes, no Blocked status is set — and since
the error is not the `RuntimeError` the handlers catch,
`_on_charm_config_changed` crashes instead of producing the
Blocked-plus-defer outcome. -/
theorem claim_C10_unbound_channel (desired : Config) (ex : List String → ExecResult)
    (vlx : Bool) (s : CharmState) (v : Val)
    (hv : dictGet desired "snap-channel-lxd" = some v) (ht : v.truthy = true) :
    snap_install_microcloud desired ex vlx s =
      (s, some (PyError.unboundLocal "microcloud_channel")) ∧
    PyError.unboundLocal "microcloud_channel" ≠ PyError.runtimeError ∧
    ∀ s0, (config_is_valid desired s0).1 = true → (config_is_valid desired s0).2 = s →
      hasSnapKey (config_changed desired s.storedConfig) = true →
      on_charm_config_changed desired ex vlx s0 =
        (s, Outcome.crashed (PyError.unboundLocal "microcloud_channel")) := by
  have hsnap : snap_install_microcloud desired ex vlx s =
      (s, some (PyError.unboundLocal "microcloud_channel")) := by
    unfold snap_install_microcloud resolveChannels
    simp [hv, ht]
  refine ⟨hsnap, by simp, fun s0 h1 h2 h3 => ?_⟩
  have hp := valid_pair_eq desired s0 s h1 h2
  have hne := isEmpty_false_of_hasSnap h3
  simp [on_charm_config_changed, hp, hne, h3, hsnap]

def d10 : Config := [("snap-channel-lxd", Val.vStr "5.21/stable")]

def s10 : CharmState := ⟨[], false, UnitStatus.active⟩

/-- Witness for C10 at a concrete non-empty LXD channel. -/
theorem claim_C10_witness :
    snap_install_microcloud d10 exOk false s10 =
      (s10, some (PyError.unboundLocal "microcloud_channel")) ∧
    on_charm_config_changed d10 exOk false s10 =
      (s10, Outcome.crashed (PyError.unboundLocal "microcloud_channel")) := by
  have h := claim_C10_unbound_channel d10 exOk false s10 (Val.vStr "5.21/stable") rfl rfl
  exact ⟨h.1, h.2.2 s10 rfl rfl (by decide)⟩
